import Mathlib

/-!
Shallow embedding of the aggregation/caching/fallback/personalization
pipeline of `src/app.py` (uiu-student-bot), together with theorems
settling the spec's claims about it.

Python strings are modelled as Lean `String` (a list of characters);
Python's `in` on strings is contiguous-substring containment, `.lower()`
is ASCII lowercasing, `.split(',')` splits on commas.  SQLite tables are
modelled as Lean lists of row structures; epoch times are `Nat`.
-/

namespace UiuBot

/-- ASCII lowercasing of one character, modelling Python `str.lower` on the
ASCII data this program handles. -/
def lowerChar (c : Char) : Char :=
  if 'A' ≤ c ∧ c ≤ 'Z' then Char.ofNat (c.toNat + 32) else c

/-- Lowercasing of a whole string (`s.lower()` in the source). -/
def lowerStr (s : String) : String :=
  ⟨s.data.map lowerChar⟩

/-- Boolean test that `a` is a leading segment of `b`. -/
def leadMatch : List Char → List Char → Bool
  | [], _ => true
  | _ :: _, [] => false
  | a :: as, b :: bs => a == b && leadMatch as bs

/-- Boolean test that `needle` occurs contiguously inside `hay`:
the model of Python's `needle in hay` on strings. -/
def hasSub (needle : List Char) : List Char → Bool
  | [] => leadMatch needle []
  | b :: bs => leadMatch needle (b :: bs) || hasSub needle bs

/-- String-level wrapper for `hasSub`. -/
def hasSubStr (needle hay : String) : Bool :=
  hasSub needle.data hay.data

/-- Comma splitting on character lists, accumulator-style. -/
def splitCommaGo : List Char → List Char → List (List Char)
  | acc, [] => [acc.reverse]
  | acc, c :: rest =>
      if c = ',' then acc.reverse :: splitCommaGo [] rest
      else splitCommaGo (c :: acc) rest

/-- Model of Python `s.split(',')`: e.g. "a,b" becomes ["a", "b"] and the
empty string becomes [""]. -/
def splitCommaS (s : String) : List String :=
  (splitCommaGo [] s.data).map (fun l => ⟨l⟩)

/-- Python truthiness of an optional string: `None` and the empty string
are falsy, everything else truthy. -/
def truthy : Option String → Bool
  | none => false
  | some s => !s.isEmpty

/-! ### Record types (the per-SourceKind record shapes of the source) -/

/-- A learning-resource record, as built by `ResourcesSpider.parse`. -/
structure Resource where
  title : String
  platform : String
  link : String
deriving DecidableEq

/-- A job record, as built by `JobsSpider.parse`. -/
structure Job where
  title : String
  company : String
  location : String
  link : String
deriving DecidableEq

/-- A faculty record, as built by `FacultySpider.parse`. -/
structure Faculty where
  name : String
  designation : String
  department : String
  email : String
  phone : String
  expertise : String
deriving DecidableEq

/-- A calendar-event record, as built by `CalendarSpider.parse`. -/
structure CalEvent where
  name : String
  date : String
  details : String
deriving DecidableEq

/-- A notice record, as built by `NoticeSpider.parse`. -/
structure Notice where
  title : String
  date : String
  details : String
deriving DecidableEq

/-- A trending-repository record, as built by `TrendingSpider.parse`. -/
structure Trend where
  repo : String
  description : String
  language : String
  stars : String
deriving DecidableEq

/-! ### Static mock data (the fallback constants of the source) -/

/-- The `MOCK_RESOURCES` constant of the source. -/
def mockResources : List Resource :=
  [{ title := "Learn Python", platform := "freeCodeCamp",
     link := "https://freecodecamp.org/learn/python" }]

/-- The `MOCK_JOBS` constant of the source. -/
def mockJobs : List Job :=
  [{ title := "AI Internship at Grameenphone", company := "Grameenphone",
     location := "Remote", link := "http://example.com" }]

/-- The `MOCK_EVENTS` constant of the source. -/
def mockEvents : List CalEvent :=
  [{ name := "UIU Hackathon 2025", date := "2025-09-15",
     details := "Join the annual coding challenge!" }]

/-- The `MOCK_FACULTY` constant of the source. -/
def mockFaculty : List Faculty :=
  [{ name := "Dr. Suman Ahmmed", designation := "Head", department := "CSE",
     email := "suman@cse.uiu.ac.bd", phone := "N/A", expertise := "AI, ML" },
   { name := "Dr. Rumana Afrin", designation := "Head",
     department := "Civil Engineering", email := "rumana@ce.uiu.ac.bd",
     phone := "N/A", expertise := "Structural Engineering" },
   { name := "Dr. Mohammad Musa", designation := "Dean",
     department := "Business Administration", email := "musa@sobe.uiu.ac.bd",
     phone := "N/A", expertise := "Finance" },
   { name := "Dr. Mohammad Omar Farooq", designation := "Head",
     department := "Economics", email := "farooq@sobe.uiu.ac.bd",
     phone := "N/A", expertise := "Economic Policy" }]

/-! ### Relevance filtering (the list comprehensions of `resources`/`jobs`) -/

/-- The filter comprehension at `src/app.py:493`:
`[r for r in temp_resources if any(term in r['title'].lower() for term in filter_terms)]`. -/
def resourcesFilterList (terms : List String) (rs : List Resource) : List Resource :=
  rs.filter (fun r => terms.any (fun t => hasSubStr t (lowerStr r.title)))

/-- The filter comprehension at `src/app.py:581`:
a job is kept when some term occurs in its lowercased title, company or location. -/
def jobsFilterList (terms : List String) (js : List Job) : List Job :=
  js.filter (fun j => terms.any (fun t =>
    hasSubStr t (lowerStr j.title) || hasSubStr t (lowerStr j.company) ||
      hasSubStr t (lowerStr j.location)))

/-! ### Rate limiting (`can_scrape`, `src/app.py:359-364`) -/

/-- The `user_last_scrape` rate state: user id to epoch of last successful
scrape, with Python's `dict.get(user_id, 0)` default of `0` meaning
"no prior call".  `can_scrape` returns `false` and leaves the state
unchanged when less than 60 seconds have elapsed, otherwise stamps the
current time and returns `true`. -/
def can_scrape (now uid : Nat) (st : Nat → Nat) : Bool × (Nat → Nat) :=
  let last := st uid
  if now - last < 60 then (false, st)
  else (true, fun u => if u = uid then now else st u)

/-! ### Handler composition (`calendar`, `resources`, `jobs`, `mentor`) -/

/-- Reply shape of the `calendar` handler (`src/app.py:442-464`): a bare
"Please wait a minute" message, a rendering of the scraped events, or the
mock-data fallback. -/
inductive CalendarReply
  | wait
  | events (evs : List CalEvent)
  | mock (evs : List CalEvent)
deriving DecidableEq

/-- The records contained in a calendar reply: the rate-limited "wait"
message carries none. -/
def calendarReplyRecords : CalendarReply → List CalEvent
  | .wait => []
  | .events evs => evs
  | .mock evs => evs

/-- The `calendar` handler (`src/app.py:442-464`): gate on `can_scrape`,
replying "Please wait" and returning at once when rate-limited; otherwise
render the scraped batch, or the `MOCK_EVENTS` fallback when the scrape
produced nothing. -/
def calendarCmd (now uid : Nat) (st : Nat → Nat) (scraped : List CalEvent) :
    CalendarReply × (Nat → Nat) :=
  let g := can_scrape now uid st
  if g.1 then
    (if scraped.isEmpty then (.mock mockEvents) else (.events scraped), g.2)
  else (.wait, g.2)

/-- Reply shape of the `resources` handler (`src/app.py:469-500`). -/
inductive ResourcesReply
  | wait
  | data (rs : List Resource)
  | mock (rs : List Resource)
deriving DecidableEq

/-- Filter terms of the `resources` handler (`src/app.py:492`):
`[keyword] if keyword else profile[0].split(',')`. -/
def resourceTerms (kw prof : Option String) : List String :=
  if truthy kw then [kw.getD default] else splitCommaS (prof.getD default)

/-- The post-gate body of the `resources` handler (`src/app.py:488-499`):
when the scraped batch is non-empty, filter it by the keyword or the
profile's roadmap terms (when either is truthy) and render the first five;
only when the scraped batch is empty fall back to `MOCK_RESOURCES`. -/
def resourcesCompose (scraped : List Resource) (kw prof : Option String) :
    ResourcesReply :=
  if scraped.isEmpty then .mock mockResources
  else if truthy kw || truthy prof then
    .data ((resourcesFilterList (resourceTerms kw prof) scraped).take 5)
  else .data (scraped.take 5)

/-- The `resources` handler with its rate gate (`src/app.py:469-500`). -/
def resourcesCmd (now uid : Nat) (st : Nat → Nat) (kw prof : Option String)
    (scraped : List Resource) : ResourcesReply × (Nat → Nat) :=
  let g := can_scrape now uid st
  if g.1 then (resourcesCompose scraped kw prof, g.2)
  else (.wait, g.2)

/-- Reply shape of the `jobs` handler (`src/app.py:557-591`). -/
inductive JobsReply
  | wait
  | data (js : List Job)
  | mock (js : List Job)
deriving DecidableEq

/-- Filter terms of the `jobs` handler (`src/app.py:580`):
`[keyword, "bangladesh", "uiu"] if keyword else profile[1].split(',') + ["bangladesh", "uiu"]`. -/
def jobTerms (kw prof : Option String) : List String :=
  if truthy kw then [kw.getD default, "bangladesh", "uiu"]
  else splitCommaS (prof.getD default) ++ ["bangladesh", "uiu"]

/-- The post-gate body of the `jobs` handler (`src/app.py:576-590`). -/
def jobsCompose (scraped : List Job) (kw prof : Option String) : JobsReply :=
  if scraped.isEmpty then .mock mockJobs
  else if truthy kw || truthy prof then
    .data ((jobsFilterList (jobTerms kw prof) scraped).take 5)
  else .data (scraped.take 5)

/-- The faculty filter of the `mentor` handler (`src/app.py:680`): keep a
faculty member when the query occurs in the lowercased department or
expertise. -/
def mentorFilter (q : String) (fs : List Faculty) : List Faculty :=
  fs.filter (fun f =>
    hasSubStr q (lowerStr f.department) || hasSubStr q (lowerStr f.expertise))

/-- The mock-data fallback of the `mentor` handler (`src/app.py:688-698`):
the static `MOCK_FACULTY` list filtered by the same query test.  No
"no data available" marker is ever appended. -/
def mentorMockFiltered (q : String) : List Faculty :=
  mockFaculty.filter (fun f =>
    hasSubStr q (lowerStr f.department) || hasSubStr q (lowerStr f.expertise))

/-- The records rendered by the `mentor` handler (`src/app.py:678-698`)
as a function of the query and the scraped faculty batch: scraped matches
when the batch has any, otherwise the filtered mock list (both when the
batch is empty and when the batch filters to nothing). -/
def mentorRecords (q : String) (scraped : List Faculty) : List Faculty :=
  if scraped.isEmpty then mentorMockFiltered q
  else
    let filtered := mentorFilter q scraped
    if filtered.isEmpty then mentorMockFiltered q else filtered

/-! ### Per-command fetch gating (claim C6) -/

/-- The commands that can trigger a live fetch. -/
inductive Cmd
  | calendar | resources | trending | stackoverflow | jobs
  | roadmap | mentor | notice | recommend
deriving DecidableEq

/-- The scraping commands, i.e. every fetching command except `recommend`. -/
def scrapeCmds : List Cmd :=
  [.calendar, .resources, .trending, .stackoverflow, .jobs,
   .roadmap, .mentor, .notice]

/-- Whether a command is allowed to (and in the `recommend` case, does)
trigger a live fetch, with the updated rate state.  Each of the eight
scraping handlers begins with `if not can_scrape(user_id): return`
(`src/app.py:445, 474, 510, 536, 562, 606, 668, 708`); the `recommend`
handler (`src/app.py:1033-1069`) crawls `FacultySpider` whenever the
profile's `favorite_roadmaps` is truthy, never consulting `can_scrape`. -/
def cmdFetch (c : Cmd) (now uid : Nat) (st : Nat → Nat)
    (hasRoadmaps : Bool) : Bool × (Nat → Nat) :=
  match c with
  | .recommend => (hasRoadmaps, st)
  | _ => can_scrape now uid st

/-! ### Process-wide temporary buffers and `recommend` (claim C2) -/

/-- The module-level mutable buffers of `src/app.py:59-67`
(`temp_resources`, `temp_trending`, `temp_jobs`, `temp_faculty`): one
process-wide copy, not scoped by user or query. -/
structure TempState where
  resources : List Resource
  trending : List Trend
  jobs : List Job
  faculty : List Faculty
deriving DecidableEq

/-- The empty initial buffer state (`src/app.py:59-67`). -/
def initTemp : TempState :=
  { resources := [], trending := [], jobs := [], faculty := [] }

/-- Effect of `ResourcesSpider.parse` (`src/app.py:204-217`): reset the
global `temp_resources` and fill it with the freshly scraped batch.  The
triggering user's id is taken as an argument only to record that the write
is not scoped by it. -/
def resourcesSpiderRun (uid : Nat) (scraped : List Resource)
    (st : TempState) : TempState :=
  { st with resources := scraped }

/-- The resources section of the `recommend` handler (`src/app.py:1045-1048`):
read the process-wide `temp_resources`, filter by the requesting user's
roadmap terms, and render the first three.  The requesting user's id is an
argument only to record that the read is not scoped by it. -/
def recommendResourcesList (uid : Nat) (roadmapTerms : List String)
    (st : TempState) : List Resource :=
  (st.resources.filter
    (fun r => roadmapTerms.any (fun t => hasSubStr t (lowerStr r.title)))).take 3

/-! ### Record extractors (claim C9) -/

/-- Default text "No title" used by several extractors. -/
def noTitleS : String := "No title"

/-- Default text "No date" used by several extractors. -/
def noDateS : String := "No date"

/-- Default text "No details" used by several extractors. -/
def noDetailsS : String := "No details"

/-- Default text "Unknown" used by the faculty extractor. -/
def unknownS : String := "Unknown"

/-- Default text "N/A" used by the faculty extractor. -/
def naS : String := "N/A"

/-- A raw calendar item: the optional texts the CSS selectors of
`CalendarSpider.parse` return for one event node. -/
structure RawEvent where
  name : Option String
  date : Option String
  details : Option String

/-- A raw notice item from `NoticeSpider.parse`. -/
structure RawNotice where
  title : Option String
  date : Option String
  details : Option String

/-- A raw faculty item from `FacultySpider.parse` (whitespace stripping of
the source is elided; it never changes how many records are produced). -/
structure RawFaculty where
  name : Option String
  designation : Option String
  email : Option String
  phone : Option String
  expertise : Option String

/-- Field extraction for one calendar event (`src/app.py:189-192`),
applying the `get(default=...)` defaults. -/
def calendarItem (r : RawEvent) : CalEvent :=
  { name := r.name.getD noTitleS, date := r.date.getD noDateS,
    details := r.details.getD noDetailsS }

/-- The `CalendarSpider.parse` extractor (`src/app.py:183-194`): the node
list is sliced with `[:5]` before extraction. -/
def calendarParse (items : List RawEvent) : List CalEvent :=
  (items.take 5).map calendarItem

/-- Python's `x or d` default for an optional string: `None` and the empty
string both fall back to the default. -/
def orDefault (o : Option String) (d : String) : String :=
  match o with
  | none => d
  | some s => if s.isEmpty then d else s

/-- Field extraction for one notice (`src/app.py:318-320`), applying the
`get() or "..."` defaults. -/
def noticeItem (r : RawNotice) : Notice :=
  { title := orDefault r.title noTitleS, date := orDefault r.date noDateS,
    details := orDefault r.details noDetailsS }

/-- The `NoticeSpider.parse` extractor (`src/app.py:312-323`): the node
list is sliced with `[:3]` before extraction. -/
def noticeParse (items : List RawNotice) : List Notice :=
  (items.take 3).map noticeItem

/-- Field extraction for one faculty member (`src/app.py:150-158`). -/
def facultyItem (dept : String) (r : RawFaculty) : Faculty :=
  { name := r.name.getD unknownS, designation := r.designation.getD naS,
    department := dept, email := r.email.getD naS,
    phone := r.phone.getD naS, expertise := r.expertise.getD naS }

/-- The `FacultySpider.parse` extractor (`src/app.py:143-161`): every
matched node is appended to the global `temp_faculty` with no slice and no
cap. -/
def facultyParse (dept : String) (items : List RawFaculty)
    (acc : List Faculty) : List Faculty :=
  acc ++ items.map (facultyItem dept)

/-! ### User profiles (`/profile set`, claim C8) -/

/-- One row of the `user_profiles` table (`src/app.py:43`); the table has
`user_id INTEGER PRIMARY KEY`, so `INSERT OR REPLACE` really replaces. -/
structure ProfileRow where
  department : String
  year : Int
  favorite_roadmaps : String
deriving DecidableEq

/-- The profile store: association of user id to profile row, at most one
row per user id (primary key). -/
abbrev ProfStore := List (Nat × ProfileRow)

/-- Numeric value of a decimal digit character, or `none`. -/
def digitVal (c : Char) : Option Nat :=
  if '0' ≤ c ∧ c ≤ '9' then some (c.toNat - 48) else none

/-- Accumulating decimal reader. -/
def digitsGo : List Char → Nat → Option Nat
  | [], acc => some acc
  | c :: rest, acc =>
      match digitVal c with
      | none => none
      | some d => digitsGo rest (acc * 10 + d)

/-- Value of a non-empty all-digit character list, or `none`. -/
def digitsVal : List Char → Option Nat
  | [] => none
  | l => digitsGo l 0

/-- Model of Python `int(s)` on the token strings the handler receives:
an optional sign followed by decimal digits parses, anything else raises
`ValueError` (here `none`). -/
def pyIntP (s : List Char) : Option Int :=
  match s with
  | '-' :: rest => (digitsVal rest).map (fun n => -(n : Int))
  | '+' :: rest => (digitsVal rest).map (fun n => (n : Int))
  | _ => (digitsVal s).map (fun n => (n : Int))

/-- `INSERT OR REPLACE` into `user_profiles` (`src/app.py:999`): the
primary key on `user_id` makes the write replace any existing row. -/
def profilesPut (uid : Nat) (row : ProfileRow) (store : ProfStore) : ProfStore :=
  store.filter (fun p => p.1 ≠ uid) ++ [(uid, row)]

/-- Profile lookup (`SELECT ... FROM user_profiles WHERE user_id = ?`). -/
def getProfile (uid : Nat) (store : ProfStore) : Option ProfileRow :=
  (List.find? (fun p => p.1 = uid) store).map (fun p => p.2)

/-- Outcome of a `/profile set` call: the stored-confirmation reply or the
error reply of the exception handlers. -/
inductive SetResult
  | ok
  | invalid
deriving DecidableEq

/-- The write path of the `profile` handler (`src/app.py:996-1002`), after
the argument-count and "set" guard: `int(args[2])` either raises
`ValueError` (caught by the generic `except`, leaving the database
untouched) or yields an integer that is stored as-is — the pydantic
`UserProfile` model constrains `year` only to be an `int`, with no
positivity check. -/
def setProfile (uid : Nat) (dept yearStr roadmaps : String) (store : ProfStore) :
    SetResult × ProfStore :=
  match pyIntP yearStr.data with
  | none => (.invalid, store)
  | some y =>
      (.ok, profilesPut uid
        { department := dept, year := y, favorite_roadmaps := roadmaps } store)

/-! ### The roadmaps cache table (claim C4) -/

/-- One row of the `roadmaps` table (`src/app.py:42`).  The schema is
`roadmap_type TEXT, level TEXT, title TEXT, steps TEXT, resources TEXT,
projects TEXT, last_updated REAL` with no PRIMARY KEY and no UNIQUE
constraint. -/
structure RoadmapRow where
  rtype : String
  level : String
  title : String
  steps : List String
  resources : List String
  projects : List String
  last_updated : Nat
deriving DecidableEq

/-- The scraped payload for one level of a roadmap page. -/
structure RoadmapPayload where
  title : String
  steps : List String
  resources : List String
  projects : List String

/-- SQLite `INSERT OR REPLACE` replaces a row only when a uniqueness
constraint (PRIMARY KEY or UNIQUE) would be violated; the `roadmaps`
table declares none, so the statement at `src/app.py:123-127` degenerates
to a plain `INSERT` that appends a new row. -/
def roadmapsInsertOrReplace (row : RoadmapRow) (tbl : List RoadmapRow) :
    List RoadmapRow :=
  tbl ++ [row]

/-- `SELECT ... FROM roadmaps WHERE roadmap_type = ? AND level = ?`
followed by `fetchall()`: every matching row is returned. -/
def roadmapsSelect (t l : String) (tbl : List RoadmapRow) : List RoadmapRow :=
  tbl.filter (fun r => r.rtype == t && r.level == l)

/-- The three level names iterated by `RoadmapSpider.parse`. -/
def levelsL : List String := ["beginner", "intermediate", "advanced"]

/-- `RoadmapSpider.parse` (`src/app.py:112-129`): for each of the three
levels, build a row from the scraped payload stamped with the current time
and run `INSERT OR REPLACE` on it. -/
def roadmapSpiderParse (rtype : String) (payload : String → RoadmapPayload)
    (now : Nat) (tbl : List RoadmapRow) : List RoadmapRow :=
  levelsL.foldl (fun acc lvl =>
    roadmapsInsertOrReplace
      { rtype := rtype, level := lvl, title := (payload lvl).title,
        steps := (payload lvl).steps, resources := (payload lvl).resources,
        projects := (payload lvl).projects, last_updated := now } acc) tbl

/-! ### Spec-modelled approximate-substring similarity (claim C1) -/

/-- One row update of the Wagner-Fischer edit-distance computation:
from the previous row over `b` and the next character `ca` of `a`,
produce the next row.  `cur` is the leftmost cell of the new row. -/
def levGo (ca : Char) : List Char → List Nat → Nat → List Nat
  | [], _, cur => [cur]
  | cb :: bs, prev, cur =>
      match prev with
      | p0 :: prest =>
          let pj := prest.headD 0
          let next := min (cur + 1)
            (min (pj + 1) (p0 + (if ca = cb then 0 else 1)))
          cur :: levGo ca bs prest next
      | [] => [cur]

/-- Computes the next full row of the edit-distance table. -/
def levRow (ca : Char) (b : List Char) (prev : List Nat) : List Nat :=
  levGo ca b prev (prev.headD 0 + 1)

/-- Levenshtein edit distance between two character lists (dynamic
programming over rows). -/
def levenshtein (a b : List Char) : Nat :=
  (a.foldl (fun row ca => levRow ca b row)
    (List.range (b.length + 1))).getLastD 0

/-- All contiguous sublists of `l` (with duplicates; harmless for taking a
maximum). -/
def allSubLists (l : List Char) : List (List Char) :=
  (l.tails.map (fun t => t.inits)).flatten

/-- Modelled from the spec: a similarity score between two character lists
on a normalized 0-100 scale, `100 * (maxLen - editDistance) / maxLen`.
The source contains no scoring function at all; this definition follows
the spec's words ("approximate string similarity", "normalized 0-100
scale") to compare against the source's exact-substring filter. -/
def simScore (t s : List Char) : Nat :=
  let m := max t.length s.length
  if m = 0 then 100 else (100 * (m - levenshtein t s)) / m

/-- Modelled from the spec: the approximate-substring similarity of a term
against a record field, the best similarity of the term against any
contiguous substring of the (lowercased) field. -/
def bestSubScore (t field : List Char) : Nat :=
  ((allSubLists field).map (simScore t)).foldl max 0

/-! ### Concrete inputs used by counterexamples and witnesses -/

/-- The empty rate state: no user has ever scraped. -/
def zeroSt : Nat → Nat := fun _ => 0

/-- A rate state in which every user last scraped at epoch 100. -/
def busySt : Nat → Nat := fun _ => 100

/-- A misspelled query term, one edit away from "python". -/
def pythomS : String := "pythom"

/-- A record title a fuzzy match should surface. -/
def pyProgS : String := "Python Programming"

/-- The query term "python". -/
def pythonTermS : String := "python"

/-- A query matching no mock faculty department or expertise. -/
def qxS : String := "xyzzy"

/-- The department string "CSE". -/
def cseS : String := "CSE"

/-- A negative year input. -/
def negThreeS : String := "-3"

/-- A non-numeric year input. -/
def abcS : String := "abc"

/-- The level name "beginner". -/
def beginnerS : String := "beginner"

/-- A resource record titled "Python Programming". -/
def recPyProg : Resource :=
  { title := pyProgS, platform := "freeCodeCamp", link := "#" }

/-- A resource record titled "Python Course". -/
def recPyCourse : Resource :=
  { title := "Python Course", platform := "coursera.org", link := "#" }

/-- A resource record titled "Haskell Course". -/
def recHaskell : Resource :=
  { title := "Haskell Course", platform := "edx.org", link := "#" }

/-- A job record matching none of the terms "python", "bangladesh", "uiu". -/
def plainJob : Job :=
  { title := "Frontend Developer", company := "Acme", location := "Office",
    link := "#" }

/-- A previously stored profile row. -/
def priorRow : ProfileRow :=
  { department := cseS, year := 2, favorite_roadmaps := pythonTermS }

/-- A profile store holding only `priorRow` for user 1. -/
def priorStore : ProfStore := [(1, priorRow)]

/-- A constant scraped payload for roadmap pages. -/
def defPayload : String → RoadmapPayload := fun lvl =>
  { title := lvl, steps := [], resources := [], projects := [] }

/-- A raw faculty node with every selector missing. -/
def emptyRawFaculty : RawFaculty :=
  { name := none, designation := none, email := none, phone := none,
    expertise := none }

/-- Six raw faculty nodes, one more than the spec's largest cap. -/
def sixRawFaculty : List RawFaculty := List.replicate 6 emptyRawFaculty

/-! ## Theorems -/

set_option maxRecDepth 200000

/-- A failed `can_scrape` call leaves the rate state unchanged. -/
lemma can_scrape_false_state (now uid : Nat) (st : Nat → Nat)
    (h : (can_scrape now uid st).1 = false) :
    (can_scrape now uid st).2 = st := by
  unfold can_scrape at h ⊢
  by_cases hc : now - st uid < 60
  · simp [hc]
  · simp [hc] at h

/-- A successful `can_scrape` call returns `true` exactly when at least 60
seconds have elapsed since the stored `LastScrapeEpoch`. -/
lemma can_scrape_true_iff (now uid : Nat) (st : Nat → Nat) :
    (can_scrape now uid st).1 = true ↔ 60 ≤ now - st uid := by
  unfold can_scrape
  by_cases hc : now - st uid < 60
  · simp [hc]
  · simp [hc]
    omega

/-- A successful `can_scrape` call stamps the caller's entry with the
current time and leaves every other entry unchanged. -/
lemma can_scrape_snd_true (now uid : Nat) (st : Nat → Nat)
    (h : (can_scrape now uid st).1 = true) :
    (can_scrape now uid st).2 = fun u => if u = uid then now else st u := by
  unfold can_scrape at h ⊢
  by_cases hc : now - st uid < 60
  · simp [hc] at h
  · simp [hc]

/-- After a successful `can_scrape` call, any further call by the same
user strictly inside the 60-second window fails. -/
lemma can_scrape_blocked (now uid d : Nat) (st : Nat → Nat)
    (h : (can_scrape now uid st).1 = true) (hd : d < 60) :
    (can_scrape (now + d) uid (can_scrape now uid st).2).1 = false := by
  rw [can_scrape_snd_true now uid st h]
  rw [Bool.eq_false_iff]
  intro htrue
  rw [can_scrape_true_iff] at htrue
  have hx : (if uid = uid then now else st uid) = now := if_pos rfl
  rw [hx] at htrue
  omega

/-- C3: `can_scrape` (the Rate Limiter's `TryAcquire`) returns `true` iff
the user's `LastScrapeEpoch` is the no-prior-call default 0 or lies at
least 60 seconds in the past; a `false` call leaves the rate state
unchanged; a `true` call stamps `LastScrapeEpoch` to the current time; and
after a success, a call `d` seconds later succeeds exactly when the full
60-second cooldown has elapsed (so a call cooldown+1 seconds later
succeeds).  The hypothesis `60 ≤ now` models the real epoch clock, which
always exceeds the cooldown length. -/
theorem can_scrape_contract (now uid d : Nat) (st : Nat → Nat)
    (h0 : 60 ≤ now) :
    ((can_scrape now uid st).1 = true ↔ (st uid = 0 ∨ 60 ≤ now - st uid))
    ∧ ((can_scrape now uid st).1 = false → (can_scrape now uid st).2 = st)
    ∧ ((can_scrape now uid st).1 = true → (can_scrape now uid st).2 uid = now)
    ∧ ((can_scrape now uid st).1 = true →
        (((can_scrape (now + d) uid (can_scrape now uid st).2).1 = true)
          ↔ 60 ≤ d)) := by
  refine ⟨?_, ?_, ?_, ?_⟩
  · rw [can_scrape_true_iff]
    omega
  · exact can_scrape_false_state now uid st
  · intro h
    rw [can_scrape_snd_true now uid st h]
    simp
  · intro h
    rw [can_scrape_snd_true now uid st h, can_scrape_true_iff]
    have hx : (if uid = uid then now else st uid) = now := if_pos rfl
    rw [hx]
    omega

/-- Witness for C3 at the concrete input now=200, uid=5, d=61, empty rate
state. -/
theorem can_scrape_contract_witness :
    60 ≤ 200 ∧
    (((can_scrape 200 5 zeroSt).1 = true ↔ (zeroSt 5 = 0 ∨ 60 ≤ 200 - zeroSt 5))
     ∧ ((can_scrape 200 5 zeroSt).1 = false → (can_scrape 200 5 zeroSt).2 = zeroSt)
     ∧ ((can_scrape 200 5 zeroSt).1 = true → (can_scrape 200 5 zeroSt).2 5 = 200)
     ∧ ((can_scrape 200 5 zeroSt).1 = true →
         (((can_scrape (200 + 61) 5 (can_scrape 200 5 zeroSt).2).1 = true)
           ↔ 60 ≤ 61))) :=
  ⟨by decide, can_scrape_contract 200 5 61 zeroSt (by decide)⟩

/-- C6 counterexample: after a successful calendar fetch by user 7 at
epoch 100, a jobs fetch at 105 is blocked by the shared limiter, yet the
`recommend` handler's faculty live fetch at 105 still fires (it never
consults `can_scrape`), falsifying "no operation of any SourceKind
(including the Recommendation Composer's live-refresh step) can trigger
another live fetch for that user within the cooldown window". -/
theorem recommend_fetch_ignores_rate_state_counterexample :
    (cmdFetch .calendar 100 7 zeroSt false).1 = true
    ∧ (cmdFetch .jobs 105 7 (cmdFetch .calendar 100 7 zeroSt false).2 true).1 = false
    ∧ (cmdFetch .recommend 105 7 (cmdFetch .calendar 100 7 zeroSt false).2 true).1 = true := by
  refine ⟨by decide, by decide, by decide⟩

/-- C6 amended: every scraping command (calendar, resources, trending,
stackoverflow, jobs, roadmap, mentor, notice) shares the single per-user
`can_scrape` gate regardless of SourceKind — after any of them succeeds,
every scraping command for that user is blocked strictly inside the
60-second window — but the `recommend` handler's faculty live fetch is
decided by the profile alone, independent of the rate state, so it can
fire inside the window. -/
theorem scrape_gate_shared_recommend_unguarded (c c2 : Cmd)
    (hc : c ∈ scrapeCmds) (hc2 : c2 ∈ scrapeCmds) (now uid d : Nat)
    (st : Nat → Nat) (hr hr2 : Bool) :
    cmdFetch c now uid st hr = can_scrape now uid st
    ∧ (cmdFetch .recommend now uid st hr2).1 = hr2
    ∧ (cmdFetch .recommend now uid st hr2).2 = st
    ∧ ((cmdFetch c now uid st hr).1 = true → d < 60 →
        (cmdFetch c2 (now + d) uid (cmdFetch c now uid st hr).2 hr2).1 = false) := by
  have hcmd : ∀ x : Cmd, x ∈ scrapeCmds →
      cmdFetch x now uid st hr = can_scrape now uid st := by
    intro x hx
    simp only [scrapeCmds, List.mem_cons, List.mem_singleton] at hx
    rcases hx with h | h | h | h | h | h | h | h | h
    all_goals first
      | (subst h; rfl)
      | exact absurd h (by simp)
  have hcmd2 : ∀ x : Cmd, x ∈ scrapeCmds → ∀ m s,
      cmdFetch x m uid s hr2 = can_scrape m uid s := by
    intro x hx m s
    simp only [scrapeCmds, List.mem_cons, List.mem_singleton] at hx
    rcases hx with h | h | h | h | h | h | h | h | h
    all_goals first
      | (subst h; rfl)
      | exact absurd h (by simp)
  refine ⟨hcmd c hc, rfl, rfl, ?_⟩
  intro hsucc hd
  rw [hcmd c hc] at hsucc ⊢
  rw [hcmd2 c2 hc2]
  exact can_scrape_blocked now uid d st hsucc hd

/-- Witness for C6's amended theorem at calendar/jobs, user 7, epoch 100,
offset 5, empty rate state. -/
theorem scrape_gate_shared_recommend_unguarded_witness :
    Cmd.calendar ∈ scrapeCmds ∧ Cmd.jobs ∈ scrapeCmds ∧
    (cmdFetch .calendar 100 7 zeroSt false = can_scrape 100 7 zeroSt
     ∧ (cmdFetch .recommend 100 7 zeroSt true).1 = true
     ∧ (cmdFetch .recommend 100 7 zeroSt true).2 = zeroSt
     ∧ ((cmdFetch .calendar 100 7 zeroSt false).1 = true → 5 < 60 →
         (cmdFetch .jobs (100 + 5) 7 (cmdFetch .calendar 100 7 zeroSt false).2 true).1 = false)) :=
  ⟨by decide, by decide,
   scrape_gate_shared_recommend_unguarded .calendar .jobs (by decide)
     (by decide) 100 7 5 zeroSt false true⟩

/-- C7 counterexample: user 7 is inside the cooldown window (last success
at epoch 100, request at 105); the `calendar` handler answers with the
bare "Please wait" reply carrying zero records — no cached and no fallback
data — falsifying "the response ... still contains a cached or fallback
record set ... never a reply with no data". -/
theorem rate_limited_reply_empty_counterexample :
    (can_scrape 105 7 busySt).1 = false
    ∧ (calendarCmd 105 7 busySt mockEvents).1 = CalendarReply.wait
    ∧ calendarReplyRecords (calendarCmd 105 7 busySt mockEvents).1 = [] := by
  refine ⟨by decide, by decide, by decide⟩

/-- C7 amended: a request rejected by the rate limiter is answered with
only the fixed try-later message and no records; the handler returns
immediately, skipping fetch, cache and fallback alike, and leaves the
rate state unchanged. -/
theorem rate_limited_reply_is_wait_only (now uid : Nat) (st : Nat → Nat)
    (scraped : List CalEvent) (kw prof : Option String) (rs : List Resource)
    (h : (can_scrape now uid st).1 = false) :
    (calendarCmd now uid st scraped).1 = CalendarReply.wait
    ∧ calendarReplyRecords (calendarCmd now uid st scraped).1 = []
    ∧ (calendarCmd now uid st scraped).2 = st
    ∧ (resourcesCmd now uid st kw prof rs).1 = ResourcesReply.wait
    ∧ (resourcesCmd now uid st kw prof rs).2 = st := by
  have hst := can_scrape_false_state now uid st h
  refine ⟨?_, ?_, ?_, ?_, ?_⟩ <;>
    simp [calendarCmd, resourcesCmd, calendarReplyRecords, h, hst]

/-- Witness for C7's amended theorem at the concrete rate-limited state. -/
theorem rate_limited_reply_is_wait_only_witness :
    (can_scrape 105 7 busySt).1 = false ∧
    ((calendarCmd 105 7 busySt mockEvents).1 = CalendarReply.wait
     ∧ calendarReplyRecords (calendarCmd 105 7 busySt mockEvents).1 = []
     ∧ (calendarCmd 105 7 busySt mockEvents).2 = busySt
     ∧ (resourcesCmd 105 7 busySt none none mockResources).1 = ResourcesReply.wait
     ∧ (resourcesCmd 105 7 busySt none none mockResources).2 = busySt) :=
  ⟨by decide,
   rate_limited_reply_is_wait_only 105 7 busySt mockEvents none none
     mockResources (by decide)⟩

/-- C1 counterexample: the term "pythom" scores 83 (> 70) against the
title "Python Programming" under the spec's normalized approximate-
substring similarity, yet it is not an exact substring and the resources
filter drops the record — so retention is not "iff the best approximate
score exceeds 70", and a non-substring term never retains a record. -/
theorem fuzzy_threshold_not_implemented_counterexample :
    70 < bestSubScore pythomS.data (lowerStr pyProgS).data
    ∧ hasSubStr pythomS (lowerStr pyProgS) = false
    ∧ resourcesFilterList [pythomS] [recPyProg] = [] := by
  refine ⟨by decide, by decide, by decide⟩

/-- C1 amended: the resources filter retains a record iff some filter term
is a literal substring of the record's lowercased title, and the jobs
filter iff some term is a literal substring of the lowercased title,
company or location; no similarity scoring or acceptance threshold is
involved. -/
theorem filter_retains_iff_exact_substring (terms : List String)
    (rs : List Resource) (js : List Job) (r : Resource) (j : Job) :
    (r ∈ resourcesFilterList terms rs ↔
      r ∈ rs ∧ ∃ t ∈ terms, hasSubStr t (lowerStr r.title) = true)
    ∧ (j ∈ jobsFilterList terms js ↔
      j ∈ js ∧ ∃ t ∈ terms, (hasSubStr t (lowerStr j.title)
        || hasSubStr t (lowerStr j.company)
        || hasSubStr t (lowerStr j.location)) = true) := by
  constructor
  · simp [resourcesFilterList, List.mem_filter, List.any_eq_true]
  · simp [jobsFilterList, List.mem_filter, List.any_eq_true]

/-- C2: the scraped batch is stored in the process-wide `temp_resources`
buffer, and the `recommend` handler for a different user reads it back:
after user 1's scrape run stores a batch, user 2's recommendation output
contains a record from that batch, contradicting "results are stored only
in the Staleness Cache keyed by (SourceKind, QueryKey)". -/
theorem recommend_serves_other_users_batch :
    (1 : Nat) ≠ 2
    ∧ recPyCourse ∈ (resourcesSpiderRun 1 [recPyCourse] initTemp).resources
    ∧ recPyCourse ∈ recommendResourcesList 2 [pythonTermS]
        (resourcesSpiderRun 1 [recPyCourse] initTemp) := by
  refine ⟨by decide, by decide, by decide⟩

/-- C4: the `roadmaps` table declares no uniqueness constraint, so the
spider's `INSERT OR REPLACE` appends instead of replacing: two scrapes of
the same roadmap type leave two rows for the key (python, beginner), and
the subsequent `SELECT ... fetchall()` returns both — violating "at most
one entry per key, fully replaced by the next Put". -/
theorem roadmaps_put_accumulates_duplicates :
    (roadmapsSelect pythonTermS beginnerS
      (roadmapSpiderParse pythonTermS defPayload 200
        (roadmapSpiderParse pythonTermS defPayload 100 []))).length = 2 := by
  decide

/-- C5 counterexample: for the query "xyzzy" (matching no mock faculty
department or expertise) with an empty scraped batch, the mentor fallback
renders zero records and no "no data available" marker, falsifying "the
Fallback Resolver never returns an empty sequence". -/
theorem mentor_fallback_empty_counterexample :
    mentorRecords qxS [] = [] ∧ mentorMockFiltered qxS = [] := by
  refine ⟨by decide, by decide⟩

/-- C5 amended: the fallback data is only the static mock set — the
`resources` fallback returns the unfiltered one-element `MOCK_RESOURCES`,
while the `mentor` fallback filters `MOCK_FACULTY` by the query; when the
query matches no mock faculty entry, the mentor reply collapses to the
plain scraped-list filter, which can be empty, and no marker record is
ever produced. -/
theorem fallback_is_filtered_mock_without_marker (q : String)
    (scraped : List Faculty) (kw prof : Option String)
    (hq : ∀ f ∈ mockFaculty,
      hasSubStr q (lowerStr f.department) = false
      ∧ hasSubStr q (lowerStr f.expertise) = false) :
    mentorRecords q scraped = mentorFilter q scraped
    ∧ resourcesCompose [] kw prof = ResourcesReply.mock mockResources
    ∧ mockResources.length = 1 := by
  have hmock : mentorMockFiltered q = [] := by
    unfold mentorMockFiltered
    rw [List.filter_eq_nil_iff]
    intro f hf
    rcases hq f hf with ⟨h1, h2⟩
    simp [h1, h2]
  refine ⟨?_, rfl, rfl⟩
  unfold mentorRecords
  by_cases hs : scraped.isEmpty
  · have hnil : scraped = [] := List.isEmpty_iff.mp hs
    subst hnil
    simp [hmock, mentorFilter]
  · simp only [hs, if_false, Bool.false_eq_true]
    by_cases hf : (mentorFilter q scraped).isEmpty
    · have hfe : mentorFilter q scraped = [] := List.isEmpty_iff.mp hf
      simp [hf, hmock, hfe]
    · simp [hf]

/-- Witness for C5's amended theorem at the query "xyzzy" with an empty
scraped batch. -/
theorem fallback_is_filtered_mock_without_marker_witness :
    (∀ f ∈ mockFaculty,
      hasSubStr qxS (lowerStr f.department) = false
      ∧ hasSubStr qxS (lowerStr f.expertise) = false)
    ∧ (mentorRecords qxS [] = mentorFilter qxS []
       ∧ resourcesCompose [] none none = ResourcesReply.mock mockResources
       ∧ mockResources.length = 1) :=
  ⟨by decide, fallback_is_filtered_mock_without_marker qxS [] none none (by decide)⟩

/-- C8 counterexample: `/profile set CSE -3 python` is accepted — `int("-3")`
parses, pydantic's `year: int` imposes no positivity — and the stored
profile's year is the non-positive -3, falsifying "returns an error for
every input violating [Year is a positive integer]". -/
theorem setprofile_negative_year_counterexample :
    (setProfile 1 cseS negThreeS pythonTermS []).1 = SetResult.ok
    ∧ (getProfile 1 (setProfile 1 cseS negThreeS pythonTermS []).2).map
        ProfileRow.year = some (-3)
    ∧ ¬ ((0 : Int) < -3) := by
  refine ⟨by decide, by decide, by decide⟩

/-- C8 amended: SetProfile rejects a year that fails integer parsing and
then leaves the profile store unchanged, so GetProfile afterwards returns
exactly what it returned before the failed call; but any parseable
integer year, including zero and negative values, is accepted and stored
(there is no positivity or non-emptiness validation). -/
theorem setprofile_invalid_year_unchanged (uid : Nat)
    (dept yearStr roadmaps : String) (store : ProfStore)
    (h : pyIntP yearStr.data = none) :
    setProfile uid dept yearStr roadmaps store = (SetResult.invalid, store)
    ∧ getProfile uid (setProfile uid dept yearStr roadmaps store).2 =
        getProfile uid store := by
  have h1 : setProfile uid dept yearStr roadmaps store =
      (SetResult.invalid, store) := by
    unfold setProfile
    rw [h]
  exact ⟨h1, by rw [h1]⟩

/-- Witness for C8's amended theorem: `/profile set CSE abc python` on a
store holding a prior profile for user 1. -/
theorem setprofile_invalid_year_unchanged_witness :
    pyIntP abcS.data = none
    ∧ (setProfile 1 cseS abcS pythonTermS priorStore =
        (SetResult.invalid, priorStore)
       ∧ getProfile 1 (setProfile 1 cseS abcS pythonTermS priorStore).2 =
           getProfile 1 priorStore) :=
  ⟨by decide,
   setprofile_invalid_year_unchanged 1 cseS abcS pythonTermS priorStore
     (by decide)⟩

/-- C9 counterexample: six matched faculty nodes yield six records —
`FacultySpider.parse` appends every matched node with no `[:5]` slice, so
its output is not capped at the spec's small bound. -/
theorem faculty_extract_uncapped_counterexample :
    (facultyParse cseS sixRawFaculty []).length = 6
    ∧ ¬ (facultyParse cseS sixRawFaculty []).length ≤ 5 := by
  refine ⟨by decide, by decide⟩

/-- C9 amended: the calendar extractor caps its output at 5 and the
notice extractor at 3, but the faculty extractor produces one record per
matched node, appended to the running buffer, with no cap at all. -/
theorem extractor_output_bounds (evs : List RawEvent) (nts : List RawNotice)
    (its : List RawFaculty) (acc : List Faculty) (d : String) :
    (calendarParse evs).length ≤ 5
    ∧ (noticeParse nts).length ≤ 3
    ∧ (facultyParse d its acc).length = acc.length + its.length := by
  refine ⟨?_, ?_, ?_⟩
  · simp only [calendarParse, List.length_map, List.length_take]
    omega
  · simp only [noticeParse, List.length_map, List.length_take]
    omega
  · simp [facultyParse]

/-- C10: the static fallback is consulted exactly when the scraped batch
itself is empty: a non-empty extraction whose relevance filtering retains
nothing is still rendered as a data reply with zero records (header and
no items), never as the mock fallback — for both the resources and the
jobs handler. -/
theorem fallback_not_consulted_when_filter_empties
    (scraped rs : List Resource) (js ms : List Job) (kw prof : Option String)
    (hs : scraped ≠ []) (hj : js ≠ []) :
    resourcesCompose scraped kw prof ≠ ResourcesReply.mock rs
    ∧ resourcesCompose [] kw prof = ResourcesReply.mock mockResources
    ∧ ((truthy kw || truthy prof) = true →
        resourcesFilterList (resourceTerms kw prof) scraped = [] →
        resourcesCompose scraped kw prof = ResourcesReply.data [])
    ∧ jobsCompose js kw prof ≠ JobsReply.mock ms
    ∧ ((truthy kw || truthy prof) = true →
        jobsFilterList (jobTerms kw prof) js = [] →
        jobsCompose js kw prof = JobsReply.data []) := by
  have hsne : ¬ (scraped.isEmpty = true) := fun h => hs (List.isEmpty_iff.mp h)
  have hjne : ¬ (js.isEmpty = true) := fun h => hj (List.isEmpty_iff.mp h)
  refine ⟨?_, rfl, ?_, ?_, ?_⟩
  · unfold resourcesCompose
    rw [if_neg hsne]
    split <;> simp
  · intro ht hf
    unfold resourcesCompose
    rw [if_neg hsne, if_pos ht, hf]
    rfl
  · unfold jobsCompose
    rw [if_neg hjne]
    split <;> simp
  · intro ht hf
    unfold jobsCompose
    rw [if_neg hjne, if_pos ht, hf]
    rfl

/-- Witness for C10 at a concrete non-empty scraped batch that the keyword
"python" filters to nothing, for both handlers. -/
theorem fallback_not_consulted_when_filter_empties_witness :
    [recHaskell] ≠ ([] : List Resource) ∧ [plainJob] ≠ ([] : List Job)
    ∧ (resourcesCompose [recHaskell] (some pythonTermS) none ≠
        ResourcesReply.mock mockResources
       ∧ resourcesCompose [] (some pythonTermS) none =
           ResourcesReply.mock mockResources
       ∧ ((truthy (some pythonTermS) || truthy none) = true →
           resourcesFilterList (resourceTerms (some pythonTermS) none)
             [recHaskell] = [] →
           resourcesCompose [recHaskell] (some pythonTermS) none =
             ResourcesReply.data [])
       ∧ jobsCompose [plainJob] (some pythonTermS) none ≠
           JobsReply.mock mockJobs
       ∧ ((truthy (some pythonTermS) || truthy none) = true →
           jobsFilterList (jobTerms (some pythonTermS) none) [plainJob] = [] →
           jobsCompose [plainJob] (some pythonTermS) none =
             JobsReply.data [])) :=
  ⟨by decide, by decide,
   fallback_not_consulted_when_filter_empties [recHaskell] mockResources
     [plainJob] mockJobs (some pythonTermS) none (by decide) (by decide)⟩

end UiuBot
